import Mathlib

/-!
Verification of the MM3 sprite-extraction pipeline (`extract_sprites.py`).

The Python source is shallowly embedded: the ROM is an immutable byte
function plus a length, Python integers become `Nat`/`Int` (the one place a
negative value can arise, `prg_offset` below `$8000`, uses `Int`), bitwise
operators are mirrored with `&&&`/`|||`/`<<<`/`>>>`, and PIL's RGBA canvas
becomes a pixel function `Nat → Nat → RGBA`.  The final 3x upscale of the
output image is presentation-only (the scorer immediately undoes it with a
NEAREST downscale, which for an exact integer factor recovers the original
pixels), so the canvas is modelled unscaled, exactly as the scorer sees it.
-/

namespace MM3

/-- A byte image: `data i` is the byte at file offset `i`, `size` the file
length.  All reads the Python code performs are at in-range offsets for the
real ROM; out-of-range behaviour only matters for `decode_tile_8x8`, which
checks bounds explicitly. -/
structure Rom where
  data : Nat → Nat
  size : Nat

/-- RGBA color, components 0-255; the 4th component is alpha. -/
abbrev RGBA : Type := Nat × Nat × Nat × Nat

def alphaOf (c : RGBA) : Nat := c.2.2.2

def HEADER_SIZE : Nat := 16
def PRG_BANK_SIZE : Nat := 0x2000
def PRG_BANKS : Nat := 32
def CHR_START : Nat := HEADER_SIZE + PRG_BANKS * PRG_BANK_SIZE
def SP23_TABLE_ADDR : Nat := 0xA030

/-- `prg_offset(bank, cpu_addr)` from the source: ROM file offset for a PRG
bank CPU address.  Addresses at or above `$C000` ignore `bank` and use the
fixed banks `$1E`/`$1F`; addresses in `[$A000,$C000)` and `[$8000,$A000)`
use `bank` with their respective window bases.  Note the Python code has no
branch for addresses below `$8000`: they fall into the last arm and produce
`HEADER_SIZE + bank*PRG_BANK_SIZE + (addr - 0x8000)`, which can be negative
(hence the `Int` result). -/
def prg_offset (bank cpu_addr : Nat) : Int :=
  if 0xC000 ≤ cpu_addr then
    ((HEADER_SIZE + (0x1E + (cpu_addr - 0xC000) / PRG_BANK_SIZE) * PRG_BANK_SIZE
      + (cpu_addr - 0xC000) % PRG_BANK_SIZE : Nat) : Int)
  else if 0xA000 ≤ cpu_addr then
    (HEADER_SIZE : Int) + (bank : Int) * (PRG_BANK_SIZE : Int) + (cpu_addr : Int) - 0xA000
  else
    (HEADER_SIZE : Int) + (bank : Int) * (PRG_BANK_SIZE : Int) + (cpu_addr : Int) - 0x8000

/-- Read a byte at an `Int` file offset (all offsets actually read by the
pipeline are non-negative). -/
def romAt (rom : Rom) (off : Int) : Nat := rom.data off.toNat

/-- Read the byte `rom[prg_offset(bank, addr)]`. -/
def readPrg (rom : Rom) (bank addr : Nat) : Nat :=
  romAt rom (prg_offset bank addr)

/-- The six CHR bank registers `[e8, e9, $00, $01, ec, ed]`. -/
structure ChrRegs where
  r0 : Nat
  r1 : Nat
  r2 : Nat
  r3 : Nat
  r4 : Nat
  r5 : Nat
deriving DecidableEq

/-- `chr_ppu_to_rom(ppu_addr, chr_regs)` from the source. -/
def chr_ppu_to_rom (ppu_addr : Nat) (r : ChrRegs) : Nat :=
  if ppu_addr < 0x0800 then
    CHR_START + (r.r0 + ppu_addr / 0x400) * 0x400 + ppu_addr % 0x400
  else if ppu_addr < 0x1000 then
    CHR_START + (r.r1 + (ppu_addr - 0x0800) / 0x400) * 0x400 + (ppu_addr - 0x0800) % 0x400
  else if ppu_addr < 0x1400 then
    CHR_START + r.r2 * 0x400 + (ppu_addr - 0x1000)
  else if ppu_addr < 0x1800 then
    CHR_START + r.r3 * 0x400 + (ppu_addr - 0x1400)
  else if ppu_addr < 0x1C00 then
    CHR_START + r.r4 * 0x400 + (ppu_addr - 0x1800)
  else
    CHR_START + r.r5 * 0x400 + (ppu_addr - 0x1C00)

/-- `decode_tile_8x8(rom, rom_offset)` from the source: decode a 16-byte
2bpp tile into an 8x8 matrix of palette indices, returning a blank tile when
the offset is out of bounds. -/
def decode_tile_8x8 (rom : Rom) (off : Int) : List (List Nat) :=
  if off < 0 ∨ off + 16 > (rom.size : Int) then
    List.replicate 8 (List.replicate 8 0)
  else
    (List.range 8).map (fun row =>
      let lo := rom.data (off.toNat + row)
      let hi := rom.data (off.toNat + row + 8)
      (List.range 8).map (fun c =>
        let col := 7 - c
        ((lo >>> col) &&& 1) ||| (((hi >>> col) &&& 1) <<< 1)))

/-- `get_8x8_tile(rom, tile_id, chr_regs)` from the source: tile PPU address
`$1000 + tile_id*16`, translated through the CHR registers. -/
def get_8x8_tile (rom : Rom) (tile_id : Nat) (regs : ChrRegs) : List (List Nat) :=
  decode_tile_8x8 rom ((chr_ppu_to_rom (0x1000 + tile_id * 16) regs : Nat) : Int)

/-- The FCEUX 2C02 64-entry master palette from the source. -/
def NES_PALETTE : List (Nat × Nat × Nat) := [
  (0x62,0x62,0x62), (0x00,0x1F,0xB2), (0x24,0x04,0xC8), (0x52,0x00,0xB2),
  (0x73,0x00,0x76), (0x80,0x00,0x24), (0x73,0x0B,0x00), (0x52,0x28,0x00),
  (0x24,0x44,0x00), (0x00,0x57,0x00), (0x00,0x5C,0x00), (0x00,0x53,0x24),
  (0x00,0x3C,0x76), (0x00,0x00,0x00), (0x00,0x00,0x00), (0x00,0x00,0x00),
  (0xAB,0xAB,0xAB), (0x0D,0x57,0xFF), (0x4B,0x30,0xFF), (0x8A,0x13,0xFF),
  (0xBC,0x08,0xD6), (0xD2,0x12,0x69), (0xC7,0x2E,0x00), (0x9D,0x54,0x00),
  (0x60,0x7B,0x00), (0x20,0x98,0x00), (0x00,0xA3,0x00), (0x00,0x99,0x42),
  (0x00,0x7D,0xB4), (0x00,0x00,0x00), (0x00,0x00,0x00), (0x00,0x00,0x00),
  (0xFF,0xFF,0xFF), (0x53,0xAE,0xFF), (0x90,0x85,0xFF), (0xD3,0x65,0xFF),
  (0xFF,0x57,0xFF), (0xFF,0x5D,0xCF), (0xFF,0x77,0x57), (0xFF,0x9E,0x13),
  (0xB5,0xC5,0x00), (0x6E,0xE2,0x00), (0x38,0xED,0x2E), (0x12,0xE5,0x8C),
  (0x20,0xC8,0xFB), (0x3C,0x3C,0x3C), (0x00,0x00,0x00), (0x00,0x00,0x00),
  (0xFF,0xFF,0xFF), (0xB6,0xDA,0xFF), (0xCE,0xCA,0xFF), (0xE9,0xBE,0xFF),
  (0xFF,0xB8,0xFF), (0xFF,0xBA,0xEA), (0xFF,0xC5,0xBD), (0xFF,0xD5,0x9A),
  (0xE1,0xE5,0x8D), (0xBE,0xF0,0x8D), (0xA4,0xF5,0xA2), (0x98,0xF2,0xC8),
  (0x9E,0xE8,0xFC), (0xAE,0xAE,0xAE), (0x00,0x00,0x00), (0x00,0x00,0x00)]

/-- `nes_color_to_rgba(nes_idx, transparent)` from the source. -/
def nes_color_to_rgba (nes_idx : Nat) (transparent : Bool) : RGBA :=
  if transparent then (0, 0, 0, 0)
  else
    let m := nes_idx &&& 0x3F
    let c := NES_PALETTE.getD m (0, 0, 0)
    (c.1, c.2.1, c.2.2, 255)

/-- The fixed SP0/SP1 default palette bytes from the source. -/
def DEFAULT_SP01 : List Nat := [0x0F, 0x0F, 0x2C, 0x11, 0x0F, 0x0F, 0x30, 0x37]

/-- `build_param_palettes(rom, param)` from the source: SP0-SP1 from the
fixed defaults, SP2-SP3 from the bank `$01` table at `$A030 + param*8`;
slot 0 of every palette is transparent. -/
def build_param_palettes (rom : Rom) (param : Nat) : List (List RGBA) :=
  let table_off := prg_offset 0x01 (SP23_TABLE_ADDR + param * 8)
  ((List.range 2).map (fun pal_idx =>
    let base := pal_idx * 4
    [nes_color_to_rgba (DEFAULT_SP01.getD base 0) true,
     nes_color_to_rgba (DEFAULT_SP01.getD (base + 1) 0) false,
     nes_color_to_rgba (DEFAULT_SP01.getD (base + 2) 0) false,
     nes_color_to_rgba (DEFAULT_SP01.getD (base + 3) 0) false]))
  ++ ((List.range 2).map (fun pal_idx =>
    let base := ((pal_idx * 4 : Nat) : Int)
    [nes_color_to_rgba (romAt rom (table_off + base)) true,
     nes_color_to_rgba (romAt rom (table_off + base + 1)) false,
     nes_color_to_rgba (romAt rom (table_off + base + 2)) false,
     nes_color_to_rgba (romAt rom (table_off + base + 3)) false]))

/-- One OAM sprite entry parsed from a sprite definition: tile id, signed
pixel offsets, 2-bit palette index and the two flip flags. -/
structure Sprite where
  tile_id : Nat
  y_off : Int
  x_off : Int
  palette : Nat
  h_flip : Bool
  v_flip : Bool
deriving DecidableEq

/-- Python's `b if b < 128 else b - 256` signed-byte conversion. -/
def toSigned (b : Nat) : Int :=
  if b < 128 then (b : Int) else (b : Int) - 256

/-- The failure taxonomy of `extract_entity_sprite` (the Python function
returns `(None, reason)`; each reason string becomes one constructor).
`noSprites` mirrors the (unreachable) `if not sprites` arm. -/
inductive ExtractError where
  | missingOamId
  | invalidAnimationPointer
  | missingSpriteDefinition
  | invalidDefinitionPointer
  | invalidPositionPointer
  | noSprites
  | degenerateBoundingBox
  | allTransparent
deriving DecidableEq

/-- The diagnostics dictionary built on success. -/
structure SpriteInfo where
  oam_id : Nat
  anim_bank : Nat
  sprite_def_id : Nat
  sprite_count : Nat
  use_bank14 : Bool
  hp : Nat
  main_routine : Nat

/-- A successful (unscaled) rendering: canvas size plus the pixel function
(transparent `(0,0,0,0)` everywhere nothing was drawn), and diagnostics. -/
structure SpriteResult where
  width : Nat
  height : Nat
  pix : Nat → Nat → RGBA
  info : SpriteInfo

/-- Step 9 of `extract_entity_sprite`: bounding box of a non-empty sprite
list — `min`/`max` over each sprite's offset and its fixed 8x8 extent.
Returns `(min_x, min_y, width, height)`. -/
def spriteBBox (s0 : Sprite) (rest : List Sprite) : Int × Int × Int × Int :=
  let min_x := rest.foldl (fun a s => min a s.x_off) s0.x_off
  let min_y := rest.foldl (fun a s => min a s.y_off) s0.y_off
  let max_x := rest.foldl (fun a s => max a (s.x_off + 8)) (s0.x_off + 8)
  let max_y := rest.foldl (fun a s => max a (s.y_off + 8)) (s0.y_off + 8)
  (min_x, min_y, max_x - min_x, max_y - min_y)

/-- Step 10 of `extract_entity_sprite`: blit every sprite's (possibly
flipped) tile onto a transparent canvas; the `Bool` is the `all_blank`
flag (`true` while no non-zero pixel index has been drawn). -/
def drawSprites (rom : Rom) (regs : ChrRegs) (palettes : List (List RGBA))
    (sprites : List Sprite) (min_x min_y : Int) : (Nat → Nat → RGBA) × Bool :=
  sprites.foldl (fun acc s =>
    let tile0 := get_8x8_tile rom s.tile_id regs
    let tile1 := if s.v_flip then tile0.reverse else tile0
    let tile := if s.h_flip then tile1.map List.reverse else tile1
    let pal := palettes.getD s.palette []
    let bx := (s.x_off - min_x).toNat
    let byv := (s.y_off - min_y).toNat
    (List.range 8).foldl (fun acc2 row =>
      (List.range 8).foldl (fun acc3 col =>
        let px := (tile.getD row []).getD col 0
        if 0 < px then
          (fun x y => if x = bx + col ∧ y = byv + row then pal.getD px (0, 0, 0, 0)
                      else acc3.1 x y,
           false)
        else acc3) acc2) acc)
    (fun _ _ => ((0, 0, 0, 0) : RGBA), true)

/-- Stages 2-10 of `extract_entity_sprite`, entered once the OAM id has
been read and found non-zero.  Follows the Python source line by line. -/
def extract_entity_sprite_rest (rom : Rom) (entity_id : Nat) (oam_id : Nat)
    (chr_regs : ChrRegs) (palettes : List (List RGBA)) :
    Except ExtractError SpriteResult :=
  let anim_bank := if oam_id &&& 0x80 ≠ 0 then 0x1B else 0x1A
  let anim_index := oam_id &&& 0x7F
  let ptr_lo := readPrg rom anim_bank (0x8000 + anim_index)
  let ptr_hi := readPrg rom anim_bank (0x8080 + anim_index)
  let anim_ptr := (ptr_hi <<< 8) ||| ptr_lo
  if anim_ptr < 0x8000 ∨ 0xA000 ≤ anim_ptr then .error .invalidAnimationPointer
  else
    let anim_off := prg_offset anim_bank anim_ptr
    let sprite_def_id := romAt rom (anim_off + 2)
    if sprite_def_id = 0 then .error .missingSpriteDefinition
    else
      let def_ptr_lo := readPrg rom anim_bank (0x8100 + sprite_def_id)
      let def_ptr_hi := readPrg rom anim_bank (0x8200 + sprite_def_id)
      let def_ptr := (def_ptr_hi <<< 8) ||| def_ptr_lo
      if def_ptr < 0x8000 ∨ 0xA000 ≤ def_ptr then .error .invalidDefinitionPointer
      else
        let def_off := prg_offset anim_bank def_ptr
        let byte0 := romAt rom def_off
        let use_bank14 := byte0 &&& 0x80 ≠ 0
        let sprite_count := (byte0 &&& 0x7F) + 1
        let offset_table_idx := romAt rom (def_off + 1)
        let pos_bank := if use_bank14 then 0x14 else 0x19
        let pos_ptr_lo := readPrg rom pos_bank (0xBE00 + offset_table_idx)
        let pos_ptr_hi := readPrg rom pos_bank (0xBF00 + offset_table_idx)
        let pos_ptr := (pos_ptr_hi <<< 8) ||| pos_ptr_lo
        if pos_ptr < 0xA000 ∨ 0xC000 ≤ pos_ptr then .error .invalidPositionPointer
        else
          let pos_off := prg_offset pos_bank pos_ptr
          let sprites := (List.range sprite_count).map (fun i =>
            let attr := romAt rom (def_off + 3 + (i * 2 : Nat))
            { tile_id := romAt rom (def_off + 2 + (i * 2 : Nat))
              y_off := toSigned (romAt rom (pos_off + (i * 2 : Nat)))
              x_off := toSigned (romAt rom (pos_off + (i * 2 : Nat) + 1))
              palette := attr &&& 0x03
              h_flip := attr &&& 0x40 != 0
              v_flip := attr &&& 0x80 != 0 : Sprite })
          match sprites with
          | [] => .error .noSprites
          | s0 :: rest =>
            let bb := spriteBBox s0 rest
            if bb.2.2.1 ≤ 0 ∨ bb.2.2.2 ≤ 0 ∨ 128 < bb.2.2.1 ∨ 128 < bb.2.2.2 then
              .error .degenerateBoundingBox
            else
              let dr := drawSprites rom chr_regs palettes sprites bb.1 bb.2.1
              if dr.2 then .error .allTransparent
              else
                .ok { width := bb.2.2.1.toNat, height := bb.2.2.2.toNat, pix := dr.1,
                      info := { oam_id := oam_id, anim_bank := anim_bank,
                                sprite_def_id := sprite_def_id,
                                sprite_count := sprite_count,
                                use_bank14 := use_bank14,
                                hp := readPrg rom 0x00 (0xA400 + entity_id),
                                main_routine := readPrg rom 0x00 (0xA100 + entity_id) } }

/-- `extract_entity_sprite(rom, entity_id, chr_regs, palettes)` from the
source: read the OAM id from the bank `$00` table at `$A300`, fail with
`missingOamId` when it is zero, otherwise run the rest of the five-stage
pointer chain and render. -/
def extract_entity_sprite (rom : Rom) (entity_id : Nat) (chr_regs : ChrRegs)
    (palettes : List (List RGBA)) : Except ExtractError SpriteResult :=
  let oam_id := readPrg rom 0x00 (0xA300 + entity_id)
  if oam_id = 0 then .error .missingOamId
  else extract_entity_sprite_rest rom entity_id oam_id chr_regs palettes

/-- `opaque` count of `score_sprite_coherence`: pixels with non-zero alpha,
scanned row-major over the unscaled canvas. -/
def countOpaque (r : SpriteResult) : Nat :=
  ((List.range r.height).map (fun y =>
    ((List.range r.width).filter (fun x => 0 < alphaOf (r.pix x y))).length)).sum

/-- `connections` count of `score_sprite_coherence`: for every opaque pixel,
its in-bounds opaque right- and down-neighbours. -/
def countConnections (r : SpriteResult) : Nat :=
  ((List.range r.height).map (fun y =>
    ((List.range r.width).map (fun x =>
      if 0 < alphaOf (r.pix x y) then
        (if x + 1 < r.width ∧ 0 < alphaOf (r.pix (x + 1) y) then 1 else 0)
        + (if y + 1 < r.height ∧ 0 < alphaOf (r.pix x (y + 1)) then 1 else 0)
      else 0)).sum)).sum

/-- `score_sprite_coherence(rom, entity_id, chr_regs, palettes)` from the
source. Python's float score `connections/opaque*1000 + opaque` is modelled
exactly in `ℚ`; any extraction failure, and an opaque count of zero, yield
the sentinel `-1`. -/
def score_sprite_coherence (rom : Rom) (entity_id : Nat) (chr_regs : ChrRegs)
    (palettes : List (List RGBA)) : ℚ × Except ExtractError SpriteResult :=
  match extract_entity_sprite rom entity_id chr_regs palettes with
  | .error e => (-1, .error e)
  | .ok r =>
    let opq := countOpaque r
    let connections := countConnections r
    if opq = 0 then (-1, .ok r)
    else ((connections : ℚ) / (opq : ℚ) * 1000 + (opq : ℚ), .ok r)

/-- `main` computes `chr_table_off = prg_offset(0x01, 0xA200)` once; both it
and `build_entity_chr_map` read the CHR pair table there. -/
def chrTableOff : Int := prg_offset 0x01 0xA200

/-- Offset of the stage→bank table (`prg_offset(0x1E, 0xC8B9)`). -/
def stageToBankOff : Int := prg_offset 0x1E 0xC8B9

/-- One hypothesis recorded by `build_entity_chr_map`: the `(stage,
chr_regs, param)` tuple the Python code appends per placement. -/
structure PlacementCfg where
  stage : Nat
  chr_regs : ChrRegs
  param : Nat
deriving DecidableEq

instance : Inhabited ChrRegs := ⟨⟨0, 0, 0, 0, 0, 0⟩⟩

instance : Inhabited PlacementCfg := ⟨⟨0, default, 0⟩⟩

/-- The two variable selectors `(chr_regs[4], chr_regs[5])` used as the
deduplication key. -/
def cfgKey (c : PlacementCfg) : Nat × Nat := (c.chr_regs.r4, c.chr_regs.r5)

/-- The `(ec, ed)` selector pair the CHR table at `$A200` assigns to a
configuration parameter. -/
def chrKey (rom : Rom) (param : Nat) : Nat × Nat :=
  (romAt rom (chrTableOff + (param * 2 : Nat)),
   romAt rom (chrTableOff + (param * 2 : Nat) + 1))

/-- The room loop of `build_entity_chr_map`: expand the `$AA40`/`$AA60`
tables into a screen→parameter association list, stopping at the first
room whose parameter byte is `≥ 0x40`. -/
def screenMapAux (rom : Rom) (aa40 aa60 : Int) :
    List Nat → Nat → List (Nat × Nat)
  | [], _ => []
  | room :: rest, screen_num =>
    let config := romAt rom (aa40 + (room : Nat))
    let screen_count := config &&& 0x1F
    let param := romAt rom (aa60 + (room * 2 : Nat))
    if 0x40 ≤ param then []
    else
      ((List.range (screen_count + 1)).map (fun s => (screen_num + s, param)))
      ++ screenMapAux rom aa40 aa60 rest (screen_num + screen_count + 1)

/-- The enemy-table loop of `build_entity_chr_map`: scan the parallel
`$AB00`/`$AE00` arrays until the `(0xFF, 0xFF)` sentinel, recording for
every placed entity id `≤ 0x8F` the stage's CHR configuration for that
screen's parameter (falling back to the stage index when unmapped). -/
def enemyRowsAux (rom : Rom) (ab00 ae00 : Int) (stage e8 e9 : Nat)
    (smap : List (Nat × Nat)) : List Nat → List (Nat × PlacementCfg)
  | [] => []
  | i :: rest =>
    let scr := romAt rom (ab00 + (i : Nat))
    let ent := romAt rom (ae00 + (i : Nat))
    if scr = 0xFF ∧ ent = 0xFF then []
    else
      let tail := enemyRowsAux rom ab00 ae00 stage e8 e9 smap rest
      if ent ≤ 0x8F then
        let param := (smap.lookup scr).getD stage
        let ec := romAt rom (chrTableOff + (param * 2 : Nat))
        let ed := romAt rom (chrTableOff + (param * 2 : Nat) + 1)
        (ent, { stage := stage, chr_regs := ⟨e8, e9, 0x00, 0x01, ec, ed⟩,
                param := param }) :: tail
      else tail

/-- One stage's pass of `build_entity_chr_map`: resolve the stage's bank,
its BG CHR registers and screen map, then scan its enemy table. -/
def stageRows (rom : Rom) (stage : Nat) : List (Nat × PlacementCfg) :=
  let bank := romAt rom (stageToBankOff + (stage : Nat))
  let e8 := readPrg rom bank 0xAA80
  let e9 := readPrg rom bank 0xAA81
  let aa40 := prg_offset bank 0xAA40
  let aa60 := prg_offset bank 0xAA60
  let smap := screenMapAux rom aa40 aa60 (List.range 32) 0
  enemyRowsAux rom (prg_offset bank 0xAB00) (prg_offset bank 0xAE00)
    stage e8 e9 smap (List.range 256)

/-- `build_entity_chr_map(rom)[entity_id]` from the source, as the ordered
list of `(stage, chr_regs, param)` hypotheses recorded for one entity
(`[]` when the entity has no placement-table occurrence). -/
def build_entity_chr_map (rom : Rom) (eid : Nat) : List PlacementCfg :=
  (((List.range 0x12).map (stageRows rom)).flatten).filterMap
    (fun pr => if pr.1 = eid then some pr.2 else none)

/-- `entity_has_stage_tiles(rom, entity_id)` from the source: whether the
entity's first frame uses any tile id in `$80-$FF`. -/
def entity_has_stage_tiles (rom : Rom) (entity_id : Nat) : Bool :=
  let oam_id := readPrg rom 0x00 (0xA300 + entity_id)
  if oam_id = 0 then false
  else
    let anim_bank := if oam_id &&& 0x80 ≠ 0 then 0x1B else 0x1A
    let anim_index := oam_id &&& 0x7F
    let ptr_lo := readPrg rom anim_bank (0x8000 + anim_index)
    let ptr_hi := readPrg rom anim_bank (0x8080 + anim_index)
    let anim_ptr := (ptr_hi <<< 8) ||| ptr_lo
    if anim_ptr < 0x8000 ∨ 0xA000 ≤ anim_ptr then false
    else
      let anim_off := prg_offset anim_bank anim_ptr
      let sprite_def_id := romAt rom (anim_off + 2)
      if sprite_def_id = 0 then false
      else
        let def_ptr_lo := readPrg rom anim_bank (0x8100 + sprite_def_id)
        let def_ptr_hi := readPrg rom anim_bank (0x8200 + sprite_def_id)
        let def_ptr := (def_ptr_hi <<< 8) ||| def_ptr_lo
        if def_ptr < 0x8000 ∨ 0xA000 ≤ def_ptr then false
        else
          let def_off := prg_offset anim_bank def_ptr
          let sprite_count := (romAt rom def_off &&& 0x7F) + 1
          (List.range sprite_count).any
            (fun i => 0x80 ≤ romAt rom (def_off + 2 + (i * 2 : Nat)))

/-- A bank-configuration hypothesis as assembled by `main`: chosen stage
(`-1` for the parameter sweep), the six CHR registers, the palettes and the
configuration parameter. -/
structure Config where
  stage : Int
  chr_regs : ChrRegs
  palettes : List (List RGBA)
  param : Nat
deriving DecidableEq

/-- The `seen`-set deduplication loop shared by `main`'s bucketed branch and
its parameter sweep: keep an element only when its key has not been seen,
in order. -/
def dedupByKeyAcc {α : Type} (key : α → Nat × Nat) :
    List α → List (Nat × Nat) → List α
  | [], _ => []
  | a :: rest, seen =>
    if key a ∈ seen then dedupByKeyAcc key rest seen
    else a :: dedupByKeyAcc key rest (key a :: seen)

/-- The config dictionary `main` builds from one placement hypothesis. -/
def mkPlacedConfig (rom : Rom) (c : PlacementCfg) : Config :=
  { stage := (c.stage : Int), chr_regs := c.chr_regs,
    palettes := build_param_palettes rom c.param, param := c.param }

/-- The config dictionary `main`'s fallback sweep builds for a parameter. -/
def sweepConfig (rom : Rom) (p : Nat) : Config :=
  { stage := -1,
    chr_regs := ⟨0, 0, 0x00, 0x01, (chrKey rom p).1, (chrKey rom p).2⟩,
    palettes := build_param_palettes rom p, param := p }

/-- The `configs_to_try` selection of `main` (lines 487-539): the embedded
ConfigurationResolver.  With placements and stage-specific tiles: bucket by
stage tier, take the first non-empty bucket, deduplicate by `(ec, ed)`.
With placements but only shared tiles: the first placement alone.  With no
placements: sweep all parameters `$00-$39`, deduplicated by `(ec, ed)`. -/
def configs_to_try (rom : Rom) (eid : Nat) : List Config :=
  let entity_configs := build_entity_chr_map rom eid
  if entity_configs ≠ [] ∧ entity_has_stage_tiles rom eid = true then
    let rm_configs := entity_configs.filter (fun c => c.stage < 8)
    let doc_configs := entity_configs.filter (fun c => 8 ≤ c.stage ∧ c.stage < 12)
    let wily_configs := entity_configs.filter (fun c => 12 ≤ c.stage)
    let preferred :=
      if rm_configs ≠ [] then rm_configs
      else if doc_configs ≠ [] then doc_configs
      else wily_configs
    (dedupByKeyAcc cfgKey preferred []).map (mkPlacedConfig rom)
  else
    match entity_configs with
    | c :: _ => [mkPlacedConfig rom c]
    | [] => (dedupByKeyAcc (chrKey rom) (List.range 0x3A) []).map (sweepConfig rom)

/-- The best-hypothesis fold of `main` (lines 541-555): running maximum of
the coherence score, starting at `-1` with no image; a hypothesis is taken
only when its score strictly exceeds the current best. -/
def selectBest (rom : Rom) (eid : Nat) (cfgs : List Config) :
    ℚ × Option SpriteResult :=
  cfgs.foldl (fun best cfg =>
      let sc := score_sprite_coherence rom eid cfg.chr_regs cfg.palettes
      if best.1 < sc.1 then (sc.1, sc.2.toOption) else best)
    (-1, none)

/-- Fuel-based worker for `firstSeenDedupBy` (structural recursion on the
fuel, which starts at the list length and never runs out). -/
def firstSeenDedupByAux {α : Type} (key : α → Nat × Nat) : Nat → List α → List α
  | _, [] => []
  | 0, _ :: _ => []
  | fuel + 1, a :: rest =>
    a :: firstSeenDedupByAux key fuel (rest.filter (fun b => key b ≠ key a))

/-- Specification-side deduplication, written from the spec's words: keep
the first occurrence of every key, in first-seen order. -/
def firstSeenDedupBy {α : Type} (key : α → Nat × Nat) (l : List α) : List α :=
  firstSeenDedupByAux key l.length l

/-- Specification-side resolver for a placed entity, written from the
spec's words: bucket the placement hypotheses into primary (stages 0-7),
secondary (8-11) and tertiary (12+), take the first non-empty bucket and
deduplicate it by the two variable selectors in first-seen order. -/
def bucketDedupSpec (rom : Rom) (eid : Nat) : List Config :=
  let l := build_entity_chr_map rom eid
  let primary := l.filter (fun c => c.stage < 8)
  let secondary := l.filter (fun c => 8 ≤ c.stage ∧ c.stage < 12)
  let tertiary := l.filter (fun c => 12 ≤ c.stage)
  let bucket :=
    if primary ≠ [] then primary
    else if secondary ≠ [] then secondary
    else tertiary
  (firstSeenDedupBy cfgKey bucket).map (mkPlacedConfig rom)

/-! Concrete images used to instantiate the theorems. -/

/-- An image whose bytes are all zero (length 0). -/
def zeroRom : Rom := { data := fun _ => 0, size := 0 }

/-- An image whose bytes are all `0xFF` (length 0): every stage's enemy
table starts with the sentinel, so no entity has any placement. -/
def ffRom : Rom := { data := fun _ => 0xFF, size := 0 }

/-- All-zero CHR registers. -/
def zeroRegs : ChrRegs := ⟨0, 0, 0, 0, 0, 0⟩

/-- CHR registers `[0, 0, 0x00, 0x01, 0, 0]` as used for sprite tiles. -/
def fixRegs : ChrRegs := ⟨0, 0, 0x00, 0x01, 0, 0⟩

/-- A hand-built image on which entity `0` resolves through all five
stages to a single solid 8x8 tile: OAM id 1, animation pointer `$9000`
(bank `$1A`), sprite definition `$9010` with one sprite, position pointer
`$A000` with offset `(0, 0)`, tile 0 backed by 16 `0xFF` bytes at the
start of CHR (all pixel indices 3, palette 1). -/
def fixData : Nat → Nat := fun i =>
  if i = 784 then 1
  else if i = 213009 then 0x00
  else if i = 213137 then 0x90
  else if i = 217106 then 1
  else if i = 213265 then 0x10
  else if i = 213521 then 0x90
  else if i = 217120 then 0x00
  else if i = 217121 then 0x00
  else if i = 212496 then 0x00
  else if i = 212752 then 0xA0
  else if i = 204816 then 0x00
  else if i = 204817 then 0x00
  else if i = 217122 then 0x00
  else if i = 217123 then 0x01
  else if 262160 ≤ i ∧ i < 262176 then 0xFF
  else 0

def fixRom : Rom := { data := fixData, size := 262176 }

def fixPals : List (List RGBA) := build_param_palettes fixRom 0

/-- The successful rendering of entity `0` on `fixRom` (extracted from the
pipeline's result; `emptyResult` is never reached). -/
def emptyResult : SpriteResult :=
  { width := 0, height := 0, pix := fun _ _ => (0, 0, 0, 0),
    info := { oam_id := 0, anim_bank := 0, sprite_def_id := 0,
              sprite_count := 0, use_bank14 := false, hp := 0,
              main_routine := 0 } }

def fixResult : SpriteResult :=
  ((extract_entity_sprite fixRom 0 fixRegs fixPals).toOption).getD emptyResult

/-- A hand-built image on which entity `0` is placed twice in stage 0, in
two rooms with parameters 0 and 1 whose CHR pairs differ (`(0xAA,0xBB)` vs
`(0xCC,0xDD)`), while its OAM id is 0 (so `entity_has_stage_tiles` is
false).  Stage 0 uses bank 2; stages 1-17 use bank 3, whose tables are
immediately terminated by sentinels. -/
def romC2data : Nat → Nat := fun i =>
  if i = 248009 then 2
  else if 248010 ≤ i ∧ i ≤ 248026 then 3
  else if i = 27408 then 0xFF
  else if i = 28176 then 0xFF
  else if i = 27248 then 0xFF
  else if i = 19056 then 0x00
  else if i = 19058 then 0x01
  else if i = 19060 then 0xFF
  else if i = 19217 then 1
  else if i = 19218 then 0xFF
  else if i = 19986 then 0xFF
  else if i = 8720 then 0xAA
  else if i = 8721 then 0xBB
  else if i = 8722 then 0xCC
  else if i = 8723 then 0xDD
  else 0

def romC2 : Rom := { data := romC2data, size := 0 }

/-- A throwaway hypothesis for exercising `selectBest` on a failing entity. -/
def someCfg : Config :=
  { stage := -1, chr_regs := zeroRegs, palettes := [], param := 0 }

/-- The program windows the code defines directly through a bank argument
or the fixed tail: the low switchable window `[$8000,$A000)` and the fixed
top region `[$C000,$10000)`. -/
def inProgramWindow (a : Nat) : Prop :=
  (0x8000 ≤ a ∧ a < 0xA000) ∨ (0xC000 ≤ a ∧ a < 0x10000)

instance (a : Nat) : Decidable (inProgramWindow a) := by
  unfold inProgramWindow; infer_instance

/-! Helper lemmas. -/

lemma foldl_min_x_le : ∀ (l : List Sprite) (a : Int),
    l.foldl (fun b s => min b s.x_off) a ≤ a := by
  intro l
  induction l with
  | nil => intro a; simp
  | cons s t ih =>
    intro a
    rw [List.foldl_cons]
    exact le_trans (ih (min a s.x_off)) (min_le_left _ _)

lemma foldl_min_y_le : ∀ (l : List Sprite) (a : Int),
    l.foldl (fun b s => min b s.y_off) a ≤ a := by
  intro l
  induction l with
  | nil => intro a; simp
  | cons s t ih =>
    intro a
    rw [List.foldl_cons]
    exact le_trans (ih (min a s.y_off)) (min_le_left _ _)

lemma le_foldl_max_x : ∀ (l : List Sprite) (a : Int),
    a ≤ l.foldl (fun b s => max b (s.x_off + 8)) a := by
  intro l
  induction l with
  | nil => intro a; simp
  | cons s t ih =>
    intro a
    rw [List.foldl_cons]
    exact le_trans (le_max_left _ _) (ih (max a (s.x_off + 8)))

lemma le_foldl_max_y : ∀ (l : List Sprite) (a : Int),
    a ≤ l.foldl (fun b s => max b (s.y_off + 8)) a := by
  intro l
  induction l with
  | nil => intro a; simp
  | cons s t ih =>
    intro a
    rw [List.foldl_cons]
    exact le_trans (le_max_left _ _) (ih (max a (s.y_off + 8)))

/-! Claim theorems. -/

/-- C5 counterexample: for an address below `$8000` (here `$7FFF`, bank 0)
`prg_offset` does not fail with any error — it returns the offset 15,
which even lies inside the file header. -/
theorem translate_program_low_counterexample : prg_offset 0 0x7FFF = 15 := by decide

/-- C5 (amended): for every bank and every address strictly below the low
switchable window base `$8000`, `translateProgram` (`prg_offset`) does not
fail; it returns `HEADER_SIZE + bank*PRG_BANK_SIZE + (addr - 0x8000)`,
treating the address as if it were in the low window (a value that can be
negative or fall below the header). -/
theorem translate_program_low_amended (bank addr : Nat) (h : addr < 0x8000) :
    prg_offset bank addr
      = (HEADER_SIZE : Int) + (bank : Int) * (PRG_BANK_SIZE : Int) + (addr : Int) - 0x8000 := by
  unfold prg_offset
  rw [if_neg (by omega), if_neg (by omega)]

/-- Witness for C5's amended theorem at bank 0, address `$6000`. -/
theorem translate_program_low_amended_witness :
    prg_offset 0 0x6000
      = (HEADER_SIZE : Int) + ((0 : Nat) : Int) * (PRG_BANK_SIZE : Int) + ((0x6000 : Nat) : Int) - 0x8000 :=
  translate_program_low_amended 0 0x6000 (by decide)

/-- C6 counterexample: for the fixed bank `$1E` the addresses `$8000` and
`$C000` both lie in defined program windows but translate to the same
offset 245776, so address→offset is not injective within a fixed bank. -/
theorem translate_program_injective_counterexample :
    prg_offset 0x1E 0x8000 = 245776 ∧ prg_offset 0x1E 0xC000 = 245776 := by decide

/-- C6 (amended): for every bank below the bank count and every address in
`[$8000,$10000)`, `prg_offset` returns an offset in
`[HEADER_SIZE, CHR_START)` (hence inside `[headerSize, fileLength)` for any
image extending past the program region).  Injectivity within a fixed bank
holds only restricted: on the union of the low window `[$8000,$A000)` and
the fixed top region, and only for banks below `$1E` — the `$A000` window
aliases the `$8000` window, and for banks `$1E`/`$1F` the low window
aliases the fixed tail. -/
theorem translate_program_range_injective_amended (bank a b : Nat)
    (hbank : bank < 32) (ha : 0x8000 ≤ a) (ha2 : a < 0x10000) :
    ((HEADER_SIZE : Int) ≤ prg_offset bank a ∧ prg_offset bank a < (CHR_START : Int)) ∧
    (bank < 0x1E → inProgramWindow a → inProgramWindow b →
      prg_offset bank a = prg_offset bank b → a = b) := by
  constructor
  · simp only [prg_offset, CHR_START, HEADER_SIZE, PRG_BANK_SIZE, PRG_BANKS]
    split_ifs <;> push_cast <;> omega
  · intro h1 h2 h3 heq
    unfold inProgramWindow at h2 h3
    simp only [prg_offset, HEADER_SIZE, PRG_BANK_SIZE] at heq
    split_ifs at heq <;> push_cast at heq <;> omega

/-- Witness for C6's amended theorem at bank 0, addresses `$8000`. -/
theorem translate_program_range_injective_amended_witness :
    (((HEADER_SIZE : Int) ≤ prg_offset 0 0x8000 ∧ prg_offset 0 0x8000 < (CHR_START : Int)) ∧
     (0 < 0x1E → inProgramWindow 0x8000 → inProgramWindow 0x8000 →
       prg_offset 0 0x8000 = prg_offset 0 0x8000 → (0x8000 : Nat) = 0x8000)) :=
  translate_program_range_injective_amended 0 0x8000 0x8000 (by decide) (by decide) (by decide)

/-- C7: for every tile identifier and selector configuration whose
translated physical offset falls outside the binary image (negative, or
with fewer than 16 bytes remaining), the tile decoder returns the all-zero
(fully transparent) 8x8 matrix instead of failing; likewise
`decode_tile_8x8` itself on any out-of-range offset. -/
theorem tile_decoder_out_of_range_blank (rom : Rom) (tile_id : Nat)
    (regs : ChrRegs) (off : Int)
    (h1 : ((chr_ppu_to_rom (0x1000 + tile_id * 16) regs : Nat) : Int) < 0 ∨
          ((chr_ppu_to_rom (0x1000 + tile_id * 16) regs : Nat) : Int) + 16 > (rom.size : Int))
    (h2 : off < 0 ∨ off + 16 > (rom.size : Int)) :
    get_8x8_tile rom tile_id regs = List.replicate 8 (List.replicate 8 0) ∧
    decode_tile_8x8 rom off = List.replicate 8 (List.replicate 8 0) := by
  constructor
  · unfold get_8x8_tile decode_tile_8x8
    rw [if_pos h1]
  · unfold decode_tile_8x8
    rw [if_pos h2]

/-- Witness for C7 on the empty image with tile 0 and zero selectors. -/
theorem tile_decoder_out_of_range_blank_witness :
    get_8x8_tile zeroRom 0 zeroRegs = List.replicate 8 (List.replicate 8 0) ∧
    decode_tile_8x8 zeroRom 0 = List.replicate 8 (List.replicate 8 0) :=
  tile_decoder_out_of_range_blank zeroRom 0 zeroRegs 0 (by decide) (by decide)

/-- C9: for every non-empty sprite list the bounding box of
`extract_entity_sprite` has width ≥ 8 and height ≥ 8 (every sprite
contributes a fixed 8x8 extent), so the `width ≤ 0 ∨ height ≤ 0` arm of the
degenerate-bounding-box check is unreachable: the whole check is equivalent
to `width > 128 ∨ height > 128`. -/
theorem bounding_box_min_size (s0 : Sprite) (rest : List Sprite) :
    8 ≤ (spriteBBox s0 rest).2.2.1 ∧ 8 ≤ (spriteBBox s0 rest).2.2.2 ∧
    (((spriteBBox s0 rest).2.2.1 ≤ 0 ∨ (spriteBBox s0 rest).2.2.2 ≤ 0 ∨
      128 < (spriteBBox s0 rest).2.2.1 ∨ 128 < (spriteBBox s0 rest).2.2.2) ↔
     (128 < (spriteBBox s0 rest).2.2.1 ∨ 128 < (spriteBBox s0 rest).2.2.2)) := by
  have hx1 := foldl_min_x_le rest s0.x_off
  have hx2 := le_foldl_max_x rest (s0.x_off + 8)
  have hy1 := foldl_min_y_le rest s0.y_off
  have hy2 := le_foldl_max_y rest (s0.y_off + 8)
  unfold spriteBBox
  dsimp only
  omega

/-- C10: the tile decoder always returns exactly 8 rows of 8 entries, every
entry below 4; the 2-bit palette field of an attribute byte is below 4; and
`build_param_palettes` always returns 4 palettes of 4 colors — so every
palette lookup performed during composition is within bounds. -/
theorem decode_tile_wellformed (rom : Rom) (off : Int) (row col attr param : Nat)
    (hr : row < 8) (hc : col < 8) :
    (decode_tile_8x8 rom off).length = 8 ∧
    ((decode_tile_8x8 rom off).getD row []).length = 8 ∧
    ((decode_tile_8x8 rom off).getD row []).getD col 0 < 4 ∧
    attr &&& 0x03 < 4 ∧
    (build_param_palettes rom param).length = 4 ∧
    ((build_param_palettes rom param).getD (attr &&& 0x03) []).length = 4 := by
  have hpal : attr &&& 0x03 < 4 := Nat.lt_succ_of_le Nat.and_le_right
  refine ⟨?_, ?_, ?_, hpal, rfl, ?_⟩
  · unfold decode_tile_8x8
    split
    · simp
    · simp
  · unfold decode_tile_8x8
    split
    · interval_cases row <;> decide
    · simp [List.getD_eq_getElem?_getD, List.getElem?_map, List.getElem?_range hr]
  · unfold decode_tile_8x8
    split
    · interval_cases row <;> interval_cases col <;> decide
    · simp only [List.getD_eq_getElem?_getD, List.getElem?_map,
        List.getElem?_range hr, List.getElem?_range hc, Option.map_some',
        Option.getD_some]
      have h1 : (rom.data (off.toNat + row) >>> (7 - col)) &&& 1 ≤ 1 :=
        Nat.and_le_right
      have h2 : (rom.data (off.toNat + row + 8) >>> (7 - col)) &&& 1 ≤ 1 :=
        Nat.and_le_right
      rcases Nat.le_one_iff_eq_zero_or_eq_one.mp h1 with e1 | e1 <;>
        rcases Nat.le_one_iff_eq_zero_or_eq_one.mp h2 with e2 | e2 <;>
        rw [e1, e2] <;> decide
  · have : attr &&& 0x03 = 0 ∨ attr &&& 0x03 = 1 ∨ attr &&& 0x03 = 2 ∨
        attr &&& 0x03 = 3 := by omega
    rcases this with h | h | h | h <;> rw [h] <;> rfl

/-- Witness for C10 at row 0, column 0, attribute 0, parameter 0 on the
empty image. -/
theorem decode_tile_wellformed_witness :
    (decode_tile_8x8 zeroRom 0).length = 8 ∧
    ((decode_tile_8x8 zeroRom 0).getD 0 []).length = 8 ∧
    ((decode_tile_8x8 zeroRom 0).getD 0 []).getD 0 0 < 4 ∧
    0 &&& 0x03 < 4 ∧
    (build_param_palettes zeroRom 0).length = 4 ∧
    ((build_param_palettes zeroRom 0).getD (0 &&& 0x03) []).length = 4 :=
  decode_tile_wellformed zeroRom 0 0 0 0 0 (by decide) (by decide)

/-- Every result of the post-OAM stages is one of the other seven outcomes:
`missingOamId` can only be produced by the OAM check itself. -/
lemma rest_ne_missingOamId (rom : Rom) (eid oam : Nat) (regs : ChrRegs)
    (pals : List (List RGBA)) :
    extract_entity_sprite_rest rom eid oam regs pals ≠ .error .missingOamId := by
  simp only [extract_entity_sprite_rest]
  repeat' (split <;> try simp)

/-- C8: `extract_entity_sprite` returns `missingOamId` exactly when the
entity's byte in the fixed `$A300` OAM-identifier table is zero.  The
forward direction makes this the only condition producing `missingOamId`;
the backward direction holds for every image, selector configuration and
palette list — the result is fully determined by that single table byte, so
no other table read can influence it. -/
theorem missing_oam_id_iff (rom : Rom) (eid : Nat) (regs : ChrRegs)
    (pals : List (List RGBA)) :
    extract_entity_sprite rom eid regs pals = .error .missingOamId ↔
    readPrg rom 0x00 (0xA300 + eid) = 0 := by
  constructor
  · intro h
    by_contra h0
    simp only [extract_entity_sprite] at h
    rw [if_neg h0] at h
    exact rest_ne_missingOamId rom eid _ regs pals h
  · intro h
    simp only [extract_entity_sprite]
    rw [if_pos h]

/-- Witness for C8: on the all-`0xFF` image entity 5 has OAM id `0xFF`, and
indeed the extractor does not report `missingOamId` (it fails later with an
invalid animation pointer). -/
theorem missing_oam_id_iff_witness :
    (extract_entity_sprite ffRom 5 zeroRegs [] = .error .missingOamId ↔
     readPrg ffRom 0x00 (0xA300 + 5) = 0) :=
  missing_oam_id_iff ffRom 5 zeroRegs []

/-- On a successful extraction with a non-zero opaque count the score is
the exact rational `connections/opaque*1000 + opaque`. -/
lemma score_eq_of_ok (rom : Rom) (eid : Nat) (regs : ChrRegs)
    (pals : List (List RGBA)) (r : SpriteResult)
    (hok : extract_entity_sprite rom eid regs pals = .ok r)
    (hop : countOpaque r ≠ 0) :
    (score_sprite_coherence rom eid regs pals).1
      = (countConnections r : ℚ) / (countOpaque r : ℚ) * 1000 + (countOpaque r : ℚ) := by
  unfold score_sprite_coherence
  rw [hok]
  simp [hop]

/-- On any extraction failure the score is the sentinel `-1`. -/
lemma score_eq_of_error (rom : Rom) (eid : Nat) (regs : ChrRegs)
    (pals : List (List RGBA)) (e : ExtractError)
    (he : extract_entity_sprite rom eid regs pals = .error e) :
    (score_sprite_coherence rom eid regs pals).1 = -1 := by
  unfold score_sprite_coherence
  rw [he]

/-- If every hypothesis in the list scores the sentinel `-1`, the best-so-far
fold of `main` never takes any of them: the result stays `(-1, none)`. -/
lemma selectBest_all_fail (rom : Rom) (eid : Nat) : ∀ (cfgs : List Config),
    (∀ cfg ∈ cfgs, (score_sprite_coherence rom eid cfg.chr_regs cfg.palettes).1 = -1) →
    selectBest rom eid cfgs = (-1, none) := by
  intro cfgs
  induction cfgs with
  | nil => intro _; rfl
  | cons c t ih =>
    intro h
    have hc := h c (List.mem_cons_self c t)
    have ht : ∀ cfg ∈ t,
        (score_sprite_coherence rom eid cfg.chr_regs cfg.palettes).1 = -1 :=
      fun cfg hm => h cfg (List.mem_cons_of_mem c hm)
    have hrest := ih ht
    unfold selectBest at hrest ⊢
    rw [List.foldl_cons]
    dsimp only
    rw [hc, if_neg (lt_irrefl (-1 : ℚ))]
    exact hrest

/-- C3: for every successfully rendered hypothesis with a non-zero opaque
count, `score = connections/opaque * 1000 + opaque` over the unscaled
rendering; consequently a rendering with a single isolated opaque pixel
(opaque 1, connections 0) scores exactly 1, and a fully solid 8x8 block
(opaque 64, connections 112) scores exactly 1814. -/
theorem coherence_score_formula (rom : Rom) (eid : Nat) (regs : ChrRegs)
    (pals : List (List RGBA)) (r : SpriteResult)
    (hok : extract_entity_sprite rom eid regs pals = .ok r)
    (hop : countOpaque r ≠ 0) :
    (score_sprite_coherence rom eid regs pals).1
      = (countConnections r : ℚ) / (countOpaque r : ℚ) * 1000 + (countOpaque r : ℚ) ∧
    (countOpaque r = 1 → countConnections r = 0 →
      (score_sprite_coherence rom eid regs pals).1 = 1) ∧
    (countOpaque r = 64 → countConnections r = 112 →
      (score_sprite_coherence rom eid regs pals).1 = 1814) := by
  have hs := score_eq_of_ok rom eid regs pals r hok hop
  refine ⟨hs, ?_, ?_⟩
  · intro h1 h2
    rw [hs, h1, h2]
    norm_num
  · intro h1 h2
    rw [hs, h1, h2]
    norm_num

/-- Witness for C3: on the hand-built image, entity 0 renders a solid 8x8
block (opaque 64, connections 112) and scores exactly 1814. -/
theorem coherence_score_formula_witness :
    (score_sprite_coherence fixRom 0 fixRegs fixPals).1 = 1814 := by
  have h := coherence_score_formula fixRom 0 fixRegs fixPals fixResult rfl (by decide)
  exact h.2.2 (by decide) (by decide)

/-- C4: every failing hypothesis scores the sentinel `-1`, which is strictly
lower than every score of a successful rendering (those are `≥ 1`), so a
failing hypothesis is never selected; and when every hypothesis of an
entity fails — even a sole degenerate candidate — the selection fold
returns no image (the entity is reported failed; every function involved is
total, so nothing can crash). -/
theorem failed_hypothesis_sentinel (rom : Rom) (eid : Nat) (regs : ChrRegs)
    (pals : List (List RGBA)) (cfgs : List Config) :
    (∀ e, extract_entity_sprite rom eid regs pals = .error e →
       (score_sprite_coherence rom eid regs pals).1 = -1) ∧
    (∀ r, extract_entity_sprite rom eid regs pals = .ok r → countOpaque r ≠ 0 →
       (-1 : ℚ) < (score_sprite_coherence rom eid regs pals).1 ∧
       1 ≤ (score_sprite_coherence rom eid regs pals).1) ∧
    ((∀ cfg ∈ cfgs, (score_sprite_coherence rom eid cfg.chr_regs cfg.palettes).1 = -1) →
       selectBest rom eid cfgs = (-1, none)) := by
  refine ⟨?_, ?_, selectBest_all_fail rom eid cfgs⟩
  · intro e he
    exact score_eq_of_error rom eid regs pals e he
  · intro r hok hop
    have hs := score_eq_of_ok rom eid regs pals r hok hop
    have h1 : (1 : ℚ) ≤ (countOpaque r : ℚ) := by
      exact_mod_cast Nat.one_le_iff_ne_zero.mpr hop
    have h2 : (0 : ℚ) ≤ (countConnections r : ℚ) / (countOpaque r : ℚ) * 1000 := by
      positivity
    constructor
    · rw [hs]; linarith
    · rw [hs]; linarith

/-- Witness for C4: on the all-`0xFF` image entity 0 fails with an invalid
animation pointer, scores `-1`, and with that sole candidate the selection
returns no image. -/
theorem failed_hypothesis_sentinel_witness :
    (score_sprite_coherence ffRom 0 zeroRegs []).1 = -1 ∧
    selectBest ffRom 0 [someCfg] = (-1, none) := by
  have h := failed_hypothesis_sentinel ffRom 0 zeroRegs [] [someCfg]
  refine ⟨h.1 .invalidAnimationPointer rfl, h.2.2 ?_⟩
  intro cfg hm
  rw [List.mem_singleton.mp hm]
  rfl

/-- The fuel argument of `firstSeenDedupByAux` is irrelevant as long as it
is at least the list length. -/
lemma firstSeenDedupByAux_fuel {α : Type} (key : α → Nat × Nat) :
    ∀ (fuel1 : Nat) (l : List α) (fuel2 : Nat), l.length ≤ fuel1 →
      l.length ≤ fuel2 →
      firstSeenDedupByAux key fuel1 l = firstSeenDedupByAux key fuel2 l := by
  intro fuel1
  induction fuel1 with
  | zero =>
    intro l fuel2 h1 _
    rw [Nat.le_zero, List.length_eq_zero] at h1
    subst h1
    cases fuel2 <;> rfl
  | succ f ih =>
    intro l fuel2 h1 h2
    cases l with
    | nil => cases fuel2 <;> rfl
    | cons a rest =>
      cases fuel2 with
      | zero => simp at h2
      | succ f2 =>
        simp only [firstSeenDedupByAux]
        congr 1
        have hf := List.length_filter_le (fun b => decide (key b ≠ key a)) rest
        have h1' : rest.length ≤ f := by simp at h1; omega
        have h2' : rest.length ≤ f2 := by simp at h2; omega
        exact ih _ f2 (le_trans hf h1') (le_trans hf h2')

/-- The recursion equation of `firstSeenDedupBy` on a cons cell. -/
lemma firstSeenDedupBy_cons {α : Type} (key : α → Nat × Nat) (a : α)
    (rest : List α) :
    firstSeenDedupBy key (a :: rest)
      = a :: firstSeenDedupBy key (rest.filter (fun b => key b ≠ key a)) := by
  unfold firstSeenDedupBy
  simp only [List.length_cons, firstSeenDedupByAux]
  congr 1
  exact firstSeenDedupByAux_fuel key rest.length _ _
    (List.length_filter_le _ _) le_rfl

/-- The `seen`-set deduplication loop computes exactly the first-seen-order
deduplication of the elements whose key is not already seen. -/
lemma dedupByKeyAcc_eq_firstSeen {α : Type} (key : α → Nat × Nat) :
    ∀ (l : List α) (seen : List (Nat × Nat)),
    dedupByKeyAcc key l seen
      = firstSeenDedupBy key (l.filter (fun a => key a ∉ seen)) := by
  intro l
  induction l with
  | nil => intro seen; rfl
  | cons a t ih =>
    intro seen
    by_cases hk : key a ∈ seen
    · have hd : (decide (key a ∉ seen)) = false := by simp [hk]
      simp only [dedupByKeyAcc, List.filter_cons, hd, if_pos hk, if_false,
        Bool.false_eq_true]
      exact ih seen
    · have hd : (decide (key a ∉ seen)) = true := by simp [hk]
      simp only [dedupByKeyAcc, List.filter_cons, hd, if_neg hk, if_true]
      rw [firstSeenDedupBy_cons]
      congr 1
      rw [ih (key a :: seen), List.filter_filter]
      congr 1
      apply List.filter_congr
      intro b _
      simp [List.mem_cons, not_or, Bool.and_comm]

/-- The first non-empty stage bucket of a non-empty placement list is
non-empty (every placement lands in one of the three buckets). -/
lemma preferred_ne_nil (l : List PlacementCfg) (h : l ≠ []) :
    (if l.filter (fun c => c.stage < 8) ≠ [] then l.filter (fun c => c.stage < 8)
     else if l.filter (fun c => 8 ≤ c.stage ∧ c.stage < 12) ≠ []
       then l.filter (fun c => 8 ≤ c.stage ∧ c.stage < 12)
     else l.filter (fun c => 12 ≤ c.stage)) ≠ [] := by
  split_ifs with h1 h2
  · exact h1
  · exact h2
  · rw [not_ne_iff] at h1 h2
    obtain ⟨c, t, rfl⟩ := List.exists_cons_of_ne_nil h
    have hc : c ∈ c :: t := List.mem_cons_self c t
    by_cases hs1 : c.stage < 8
    · have hmem : c ∈ (c :: t).filter (fun c => c.stage < 8) :=
        List.mem_filter.mpr ⟨hc, decide_eq_true hs1⟩
      rw [h1] at hmem
      exact absurd hmem (List.not_mem_nil c)
    · by_cases hs2 : 8 ≤ c.stage ∧ c.stage < 12
      · have hmem : c ∈ (c :: t).filter (fun c => 8 ≤ c.stage ∧ c.stage < 12) :=
          List.mem_filter.mpr ⟨hc, decide_eq_true hs2⟩
        rw [h2] at hmem
        exact absurd hmem (List.not_mem_nil c)
      · have hs3 : 12 ≤ c.stage := by omega
        exact List.ne_nil_of_mem
          (List.mem_filter.mpr ⟨hc, decide_eq_true hs3⟩)

/-- Deduplicating a non-empty list with an empty seen set keeps its head. -/
lemma dedupByKeyAcc_ne_nil {α : Type} (key : α → Nat × Nat) (l : List α)
    (h : l ≠ []) : dedupByKeyAcc key l [] ≠ [] := by
  obtain ⟨c, t, rfl⟩ := List.exists_cons_of_ne_nil h
  simp [dedupByKeyAcc]

/-- C1: for every valid entity identifier the resolver's hypothesis list is
non-empty, and for an entity with no placement-table occurrence it equals
the sweep of all configuration parameters `$00-$39` in parameter order,
deduplicated (first occurrence kept) by the two variable selectors. -/
theorem configuration_resolver_nonempty_and_sweep (rom : Rom) (eid : Nat)
    (_h : eid < 0x90) :
    configs_to_try rom eid ≠ [] ∧
    (build_entity_chr_map rom eid = [] →
      configs_to_try rom eid
        = (firstSeenDedupBy (chrKey rom) (List.range 0x3A)).map (sweepConfig rom)) := by
  constructor
  · simp only [configs_to_try]
    split
    · rename_i hcond
      have hpref := preferred_ne_nil (build_entity_chr_map rom eid) hcond.1
      have hded := dedupByKeyAcc_ne_nil cfgKey _ hpref
      simpa using hded
    · split
      · simp
      · have hded := dedupByKeyAcc_ne_nil (chrKey rom) (List.range 0x3A) (by decide)
        simpa using hded
  · intro hmap
    simp only [configs_to_try, hmap]
    rw [if_neg (by simp)]
    rw [dedupByKeyAcc_eq_firstSeen]
    simp

/-- Witness for C1 on the all-`0xFF` image, where no entity has a placement
(every enemy table opens with the sentinel): entity 5's list is non-empty. -/
theorem configuration_resolver_nonempty_and_sweep_witness :
    configs_to_try ffRom 5 ≠ [] :=
  (configuration_resolver_nonempty_and_sweep ffRom 5 (by decide)).1

/-- C2 counterexample: on `romC2`, entity 0 has two placement hypotheses
(same stage, different selector pairs) but no stage-specific tiles, so the
resolver returns only the first placement's configuration — not the
deduplicated first non-empty bucket, which has two entries. -/
theorem configuration_resolver_bucket_counterexample :
    build_entity_chr_map romC2 0 ≠ [] ∧
    configs_to_try romC2 0 ≠ bucketDedupSpec romC2 0 := by decide

/-- C2 (amended): for an entity with at least one placement-derived
hypothesis, the resolver buckets and deduplicates as claimed only when the
entity uses stage-specific tiles (some first-frame tile id `≥ 0x80`); when
it uses only shared tiles the resolver instead returns just the first
placement's configuration. -/
theorem configuration_resolver_bucket_amended (rom : Rom) (eid : Nat)
    (h : build_entity_chr_map rom eid ≠ []) :
    (entity_has_stage_tiles rom eid = true →
       configs_to_try rom eid = bucketDedupSpec rom eid) ∧
    (entity_has_stage_tiles rom eid = false →
       configs_to_try rom eid
         = [mkPlacedConfig rom ((build_entity_chr_map rom eid).headI)]) := by
  constructor
  · intro hst
    simp only [configs_to_try, bucketDedupSpec]
    rw [if_pos ⟨h, hst⟩]
    rw [dedupByKeyAcc_eq_firstSeen]
    simp
  · intro hst
    simp only [configs_to_try]
    rw [if_neg (by simp [hst])]
    obtain ⟨c, t, hct⟩ := List.exists_cons_of_ne_nil h
    rw [hct]
    simp [List.headI]

/-- Witness for C2's amended theorem on `romC2`: entity 0 has placements
but no stage-specific tiles, and the resolver returns exactly the first
placement's configuration. -/
theorem configuration_resolver_bucket_amended_witness :
    configs_to_try romC2 0
      = [mkPlacedConfig romC2 ((build_entity_chr_map romC2 0).headI)] :=
  (configuration_resolver_bucket_amended romC2 0 (by decide)).2 (by decide)

end MM3
